import Mathlib

/-!
Verification development for the GRADER ETL script (`src/etl_script.py`).

The script is a batch job: fetch raw attempt records from an HTTP API,
validate/normalize each record (`validate_record`), batch-process them
(`process_data`), bulk-load the accepted records into a Postgres table
(`load_data_to_database`), compute daily aggregate statistics in one SQL
query (`get_daily_statistics`) and optionally publish them
(`upload_to_google_sheets`).  This file gives a shallow embedding of that
pipeline: the dynamically-typed values of Python become the `PyVal` inductive,
records become association lists with string keys (JSON objects), the
database table becomes a list of rows, exceptions become `Except`, and
the external collaborators (HTTP fetch, the Postgres driver fault modes,
`ast.literal_eval`) become explicit parameters.
-/

namespace Grader

/-- Model of a dynamically-typed Python/JSON value as it appears in the
records returned by `response.json()` and produced by `ast.literal_eval`. -/
inductive PyVal where
  | none : PyVal
  | bool : Bool → PyVal
  | int : Int → PyVal
  | str : String → PyVal
  | list : List PyVal → PyVal
  | dict : List (PyVal × PyVal) → PyVal
deriving Repr

mutual

/-- Python `repr` of a value (used by `str()` on containers).  String
escaping inside quotes is elided: no record field in the development
depends on it. -/
def pyRepr : PyVal → String
  | .none => "None"
  | .bool true => "True"
  | .bool false => "False"
  | .int n => toString n
  | .str s => "\x27" ++ s ++ "\x27"
  | .list xs => "[" ++ pyReprList xs ++ "]"
  | .dict kvs => "\x7b" ++ pyReprKVs kvs ++ "\x7d"

/-- Comma-separated `repr`s of the elements of a Python list. -/
def pyReprList : List PyVal → String
  | [] => ""
  | [x] => pyRepr x
  | x :: y :: rest => pyRepr x ++ ", " ++ pyReprList (y :: rest)

/-- Comma-separated `repr`s of the key/value pairs of a Python dict. -/
def pyReprKVs : List (PyVal × PyVal) → String
  | [] => ""
  | [(k, v)] => pyRepr k ++ ": " ++ pyRepr v
  | (k, v) :: p :: rest => pyRepr k ++ ": " ++ pyRepr v ++ ", " ++ pyReprKVs (p :: rest)

end

/-- Python `str()` coercion, as applied by `validate_record` to
`record["lti_user_id"]` and to the values extracted from the decoded
`passback_params` mapping. -/
def pyStr : PyVal → String
  | .str s => s
  | v => pyRepr v

/-- A raw record: one element of the JSON array returned by the API.
JSON object keys are strings, so the mapping is an association list with
string keys (Python dict keys are unique; lookup returns the bound value). -/
def RawRecord := List (String × PyVal)

/-- Python `record[k]` / `k in record` combined: the value bound to the
key, if present. -/
def getKey : RawRecord → String → Option PyVal
  | [], _ => Option.none
  | (k, v) :: rest, key => if k = key then some v else getKey rest key

/-! ### `datetime.strptime` model

the validator checks `record["created_at"]` against the formats
`%Y-%m-%d %H:%M:%S.%f` and then `%Y-%m-%d %H:%M:%S`.  the CPython module `_strptime` compiles each directive to a regex alternation; the parser
below follows those alternations exactly:
`%Y` = four digits, `%m` = `1[0-2]|0[1-9]|[1-9]`, `%d` =
`3[01]|[12]\d|0[1-9]|[1-9]`, `%H` = `2[0-3]|[0-1]\d|\d`, `%M` =
`[0-5]\d|\d`, `%S` = `6[0-1]|[0-5]\d|\d`, `%f` = 1..6 digits padded
right with zeros, a whitespace in the format = one or more whitespace
characters, and the whole input must be consumed.  The `datetime`
constructor then validates the calendar fields (this is what rejects
day 31 in April, second 61, year 0). -/

/-- A parsed `datetime` value (microsecond precision; second precision
parses leave `microsecond = 0`). -/
structure PyTimestamp where
  year : Nat
  month : Nat
  day : Nat
  hour : Nat
  minute : Nat
  second : Nat
  microsecond : Nat
deriving Repr, DecidableEq

/-- Numeric value of a decimal digit character, if it is one. -/
def digitVal (c : Char) : Option Nat :=
  if c.isDigit then some (c.toNat - 48) else Option.none

/-- Exactly four decimal digits (the `%Y` directive). -/
def parseYear4 : List Char → Option (Nat × List Char)
  | a :: b :: c :: d :: rest =>
    match digitVal a, digitVal b, digitVal c, digitVal d with
    | some x, some y, some z, some w => some (x * 1000 + y * 100 + z * 10 + w, rest)
    | _, _, _, _ => Option.none
  | _ => Option.none

/-- A one- or two-digit field.  `two d1 d2` says whether the two-digit
alternations of the regex of the directive accept the pair; `one d` says
whether the one-digit alternation accepts the digit.  The two-digit
alternations come first in the CPython regex, and since every field is
followed by a non-digit separator the greedy order is equivalent to
full backtracking. -/
def parseTwoOne (two : Nat → Nat → Bool) (one : Nat → Bool) :
    List Char → Option (Nat × List Char)
  | c1 :: c2 :: rest =>
    match digitVal c1, digitVal c2 with
    | some d1, some d2 =>
      if two d1 d2 then some (10 * d1 + d2, rest)
      else if one d1 then some (d1, c2 :: rest)
      else Option.none
    | some d1, Option.none => if one d1 then some (d1, c2 :: rest) else Option.none
    | Option.none, _ => Option.none
  | [c1] =>
    match digitVal c1 with
    | some d1 => if one d1 then some (d1, []) else Option.none
    | Option.none => Option.none
  | [] => Option.none

/-- One literal character of the format string. -/
def expectChar (c : Char) : List Char → Option (List Char)
  | x :: rest => if x = c then some rest else Option.none
  | [] => Option.none

/-- The Python `\s` class (ASCII part; the records at hand are ASCII). -/
def isPySpace (c : Char) : Bool :=
  c = ' ' || c = '\t' || c = '\n' || c = '\r' || c.toNat = 11 || c.toNat = 12

/-- A whitespace character in the format matches one or more whitespace
characters of the input (`\s+`). -/
def expectSpaces : List Char → Option (List Char)
  | x :: rest => if isPySpace x then some (rest.dropWhile isPySpace) else Option.none
  | [] => Option.none

/-- `%Y-%m-%d %H:%M:%S` — the part shared by the two accepted formats. -/
def parseDateTimeCore (cs : List Char) : Option (PyTimestamp × List Char) := do
  let (y, cs) ← parseYear4 cs
  let cs ← expectChar '-' cs
  let (mo, cs) ← parseTwoOne (fun d1 d2 => (d1 = 0 && 1 ≤ d2) || (d1 = 1 && d2 ≤ 2))
      (fun d => 1 ≤ d) cs
  let cs ← expectChar '-' cs
  let (d, cs) ← parseTwoOne
      (fun d1 d2 => (d1 = 3 && d2 ≤ 1) || d1 = 1 || d1 = 2 || (d1 = 0 && 1 ≤ d2))
      (fun d => 1 ≤ d) cs
  let cs ← expectSpaces cs
  let (h, cs) ← parseTwoOne (fun d1 d2 => (d1 = 2 && d2 ≤ 3) || d1 ≤ 1)
      (fun _ => true) cs
  let cs ← expectChar ':' cs
  let (mi, cs) ← parseTwoOne (fun d1 _ => d1 ≤ 5) (fun _ => true) cs
  let cs ← expectChar ':' cs
  let (s, cs) ← parseTwoOne (fun d1 d2 => (d1 = 6 && d2 ≤ 1) || d1 ≤ 5)
      (fun _ => true) cs
  pure (⟨y, mo, d, h, mi, s, 0⟩, cs)

/-- Gregorian leap year (as in `datetime`). -/
def isLeapYear (y : Nat) : Bool :=
  y % 4 = 0 && (y % 100 ≠ 0 || y % 400 = 0)

/-- Days in a month (as validated by the `datetime` constructor). -/
def daysInMonth (y m : Nat) : Nat :=
  if m = 2 then (if isLeapYear y then 29 else 28)
  else if m = 4 || m = 6 || m = 9 || m = 11 then 30
  else 31

/-- Range checks of the `datetime` constructor. -/
def validDateTime (t : PyTimestamp) : Bool :=
  1 ≤ t.year && t.year ≤ 9999 && 1 ≤ t.month && t.month ≤ 12 &&
  1 ≤ t.day && t.day ≤ daysInMonth t.year t.month &&
  t.hour ≤ 23 && t.minute ≤ 59 && t.second ≤ 59 && t.microsecond ≤ 999999

/-- Decimal value of a digit run. -/
def digitsToNat (ds : List Char) : Nat :=
  ds.foldl (fun acc c => acc * 10 + (c.toNat - 48)) 0

/-- Model of `datetime.strptime(s, "%Y-%m-%d %H:%M:%S")` as an `Option`
(`Option.none` = `ValueError`). -/
def strptimeSec (s : String) : Option PyTimestamp :=
  match parseDateTimeCore s.data with
  | some (t, []) => if validDateTime t then some t else Option.none
  | _ => Option.none

/-- Model of `datetime.strptime(s, "%Y-%m-%d %H:%M:%S.%f")` as an `Option`.
The fraction is 1 to 6 digits, padded on the right to microseconds. -/
def strptimeMicro (s : String) : Option PyTimestamp :=
  match parseDateTimeCore s.data with
  | some (t, rest) =>
    match expectChar '.' rest with
    | some rest2 =>
      let ds := rest2.takeWhile (fun c => c.isDigit)
      let after := rest2.dropWhile (fun c => c.isDigit)
      if 1 ≤ ds.length && ds.length ≤ 6 && after.isEmpty then
        let t2 : PyTimestamp :=
          { t with microsecond := digitsToNat ds * 10 ^ (6 - ds.length) }
        if validDateTime t2 then some t2 else Option.none
      else Option.none
    | Option.none => Option.none
  | Option.none => Option.none

/-- The timestamp check of `validate_record`: try the microsecond format
first, fall back to the second format (lines 152–159 of the source). -/
def parseTimestampEither (s : String) : Option PyTimestamp :=
  match strptimeMicro s with
  | some t => some t
  | Option.none => strptimeSec s

/-- Zero-pad a number to a given width. -/
def padNum (w n : Nat) : String :=
  let s := toString n
  if s.length < w then String.mk (List.replicate (w - s.length) '0') ++ s else s

/-- Canonical microsecond-precision rendering of a parsed timestamp
(`YYYY-MM-DD HH:MM:SS.ffffff`). -/
def formatMicroTs (t : PyTimestamp) : String :=
  padNum 4 t.year ++ "-" ++ padNum 2 t.month ++ "-" ++ padNum 2 t.day ++ " " ++
  padNum 2 t.hour ++ ":" ++ padNum 2 t.minute ++ ":" ++ padNum 2 t.second ++
  "." ++ padNum 6 t.microsecond

/-- Canonical second-precision rendering of a parsed timestamp
(`YYYY-MM-DD HH:MM:SS`). -/
def formatSecTs (t : PyTimestamp) : String :=
  padNum 4 t.year ++ "-" ++ padNum 2 t.month ++ "-" ++ padNum 2 t.day ++ " " ++
  padNum 2 t.hour ++ ":" ++ padNum 2 t.minute ++ ":" ++ padNum 2 t.second

/-- Canonical date rendering (`YYYY-MM-DD`), the value of SQL
`DATE(created_at)`. -/
def formatDate (t : PyTimestamp) : String :=
  padNum 4 t.year ++ "-" ++ padNum 2 t.month ++ "-" ++ padNum 2 t.day

/-! ### Record Validator (`parse_passback_params`, `validate_record`) -/

/-- The parser `ast.literal_eval` is external to the script; it is passed in as a
parameter: given the blob string it either returns a parsed value or
raises (`Except.error`, covering `ValueError`/`SyntaxError`). -/
def LitEval := String → Except String PyVal

/-- Model of `parse_passback_params` (source lines 113–125): `None` or the literal
string `"None"` decode to the empty mapping; a string is fed to
`ast.literal_eval`, and a parse fault or a non-dict result yields the
empty mapping with a warning (never a rejection).  `literal_eval` of a
non-string, non-`None` value raises `ValueError` ("malformed node or
string"), which the own handler of the function also turns into the empty
mapping. -/
def parse_passback_params (v : PyVal) (litEval : LitEval) : List (PyVal × PyVal) :=
  match v with
  | .none => []
  | .str s =>
    if s = "None" then []
    else
      match litEval s with
      | .ok (.dict kvs) => kvs
      | .ok _ => []
      | .error _ => []
  | _ => []

/-- Python `d.get(key, default)` for a decoded mapping and a string key
(only a string key can compare equal to a string). -/
def dictGetStr : List (PyVal × PyVal) → String → PyVal → PyVal
  | [], _, d => d
  | (PyVal.str k, v) :: rest, key, d => if k = key then v else dictGetStr rest key d
  | _ :: rest, key, d => dictGetStr rest key d

/-- The normalized record built by a successful validation: the dict of
source lines 161–169, with all seven fields always populated. -/
structure NormalizedAttempt where
  user_id : String
  oauth_consumer_key : String
  lis_result_sourcedid : String
  lis_outcome_service_url : String
  is_correct : Option Bool
  attempt_type : String
  created_at : String
deriving Repr, DecidableEq

/-- The `is_correct` coercion (source lines 144–150) applied to
`record.get("is_correct")` (absent and an explicit `None` both give
Python `None`).  `isinstance(x, int)` is true for `bool` as well, and
`bool` of a bool is the identity, so booleans are kept as-is.  A
`Option.none` result is the "invalid is_correct type" rejection. -/
def coerce_is_correct : PyVal → Option (Option Bool)
  | .none => some Option.none
  | .int n => some (some (n != 0))
  | .bool b => some (some b)
  | _ => Option.none

/-- The record constructed on successful validation (the dict literal of
source lines 161–169).  `created_at` is assigned `record["created_at"]`,
the raw string. -/
def buildAttempt (uidv : PyVal) (pbDict : List (PyVal × PyVal)) (ic : Option Bool)
    (atStr : String) (s : String) : NormalizedAttempt :=
  { user_id := pyStr uidv
    oauth_consumer_key := pyStr (dictGetStr pbDict "oauth_consumer_key" (PyVal.str ""))
    lis_result_sourcedid := pyStr (dictGetStr pbDict "lis_result_sourcedid" (PyVal.str ""))
    lis_outcome_service_url := pyStr (dictGetStr pbDict "lis_outcome_service_url" (PyVal.str ""))
    is_correct := ic
    attempt_type := atStr
    created_at := s }

/-- The body of `validate_record` (source lines 129–169), inside the nested
`try`: `Except.error` is an exception escaping the body to the
`except Exception` handler; `Except.ok Option.none` is an explicit
rejection (`return None`).  `fault` injects an unexpected internal fault
at the start of the body; the one deterministic in-body exception is
`strptime` applied to a non-string `created_at`, which raises
`TypeError` (not caught by the two inner `except ValueError` clauses).
The four required fields are checked in source order; the blob is
decoded before the `attempt_type` check. -/
def validateBodyE (record : RawRecord) (litEval : LitEval) (fault : Option String) :
    Except String (Option NormalizedAttempt) :=
  match fault with
  | some m => .error m
  | Option.none =>
    match getKey record "lti_user_id" with
    | Option.none => .ok Option.none
    | some uidv =>
      match getKey record "passback_params" with
      | Option.none => .ok Option.none
      | some pbv =>
        match getKey record "attempt_type" with
        | Option.none => .ok Option.none
        | some atv =>
          match getKey record "created_at" with
          | Option.none => .ok Option.none
          | some cav =>
            let pbDict := parse_passback_params pbv litEval
            match atv with
            | PyVal.str atStr =>
              if atStr = "run" || atStr = "submit" then
                match coerce_is_correct ((getKey record "is_correct").getD PyVal.none) with
                | Option.none => .ok Option.none
                | some ic =>
                  match cav with
                  | PyVal.str s =>
                    match parseTimestampEither s with
                    | some _ => .ok (some (buildAttempt uidv pbDict ic atStr s))
                    | Option.none => .ok Option.none
                  | _ => .error "TypeError: strptime argument must be str"
              else .ok Option.none
            | _ => .ok Option.none

/-- Model of `validate_record` as observed by callers when no unexpected fault
occurs: the body guarded by `except Exception`, which converts any
escaping exception into `None`. -/
def validate_record (record : RawRecord) (litEval : LitEval) : Option NormalizedAttempt :=
  match validateBodyE record litEval Option.none with
  | .ok v => v
  | .error _ => Option.none

/-- Variant of `validate_record` with its outer `try`/`except Exception` made
explicit, under an injected fault: an `Except.error` result would be an
exception escaping `validate_record` to its caller. -/
def validate_recordRun (record : RawRecord) (litEval : LitEval) (fault : Option String) :
    Except String (Option NormalizedAttempt) :=
  match validateBodyE record litEval fault with
  | .ok v => .ok v
  | .error _ => .ok Option.none

/-! ### Batch Processor (`process_data`) -/

/-- The loop of `process_data` (source lines 179–188): the accumulated
`validated` list in input order, and the `skipped` counter.  A returned
dict always has seven keys, so `if valid:` is exactly `valid is not
None`. -/
def process_dataLoop (litEval : LitEval) : List RawRecord → List NormalizedAttempt × Nat
  | [] => ([], 0)
  | r :: rest =>
    let acc := process_dataLoop litEval rest
    match validate_record r litEval with
    | some a => (a :: acc.1, acc.2)
    | Option.none => (acc.1, acc.2 + 1)

/-- Model of `process_data` (source lines 176–190): the function returns only the
`validated` list; `skipped` is logged, not returned. -/
def process_data (raws : List RawRecord) (litEval : LitEval) : List NormalizedAttempt :=
  (process_dataLoop litEval raws).1

/-- The `skipped` counter that `process_data` logs (and does not return). -/
def rejectedCount (raws : List RawRecord) (litEval : LitEval) : Nat :=
  (process_dataLoop litEval raws).2

/-! ### Store Gateway

The Postgres store is modelled as the list of rows of `grader_attempts`
(surrogate `id` and server-set `loaded_at` are never read back and are
omitted).  A driver fault (`psycopg2.Error`) is injected as a boolean:
the embedding cannot fail spontaneously, so each operation takes the
fault as a parameter and the transaction semantics (commit on success,
rollback on fault — the `with conn` blocks) is explicit in which database
value is returned. -/

/-- Model of `create_database_table` (source lines 193–234): `CREATE TABLE IF NOT
EXISTS` plus indexes; on `psycopg2.Error` the error is logged and
re-raised. -/
def create_database_table (fault : Bool) : Except String Unit :=
  if fault then .error "psycopg2.Error" else .ok ()

/-- Value of `cursor.rowcount` after `psycopg2.extras.execute_values` on
`n > 0` value tuples: with the default `page_size = 100` the helper
splits the tuples into pages of at most 100 and runs one multi-row
INSERT per page (inside the same transaction), and DB-API `rowcount`
reports only the rows affected by the last executed statement — the size
of the last page.  This equals `n` exactly when `n ≤ 100`. -/
def executeValuesRowcount (n : Nat) : Nat :=
  if n % 100 = 0 then 100 else n % 100

/-- Model of `load_data_to_database` (source lines 237–270).  Empty input returns 0
without touching the store.  Otherwise `execute_values` inserts every
value tuple inside one transaction (paged at 100 tuples per INSERT
statement), and the function returns `cursor.rowcount` — the row count
of the last executed page, see `executeValuesRowcount`.  On
`psycopg2.Error` the `with conn` block rolls the transaction back (the
store is unchanged) and the exception is re-raised.  Result: the
`Except` outcome paired with the store after the call. -/
def load_data_to_database (records : List NormalizedAttempt)
    (db : List NormalizedAttempt) (fault : Bool) :
    Except String Nat × List NormalizedAttempt :=
  if records.isEmpty then (.ok 0, db)
  else if fault then (.error "psycopg2.Error", db)
  else (.ok (executeValuesRowcount records.length), db ++ records)

/-- Daily statistics: the row built from the result tuple of the
aggregate query (source lines 288–301). -/
structure DailyStatistics where
  date : String
  total_attempts : Nat
  successful_attempts : Nat
  failed_attempts : Nat
  run_attempts : Nat
  unique_users : Nat
  run_count : Nat
  submit_count : Nat
  success_rate : ℚ
deriving Repr, DecidableEq

/-- Round to the nearest integer, ties to even — the rounding rule of
CPython `round()` (banker's rounding). -/
def roundHalfEven (q : ℚ) : ℤ :=
  if q - (⌊q⌋ : ℚ) < 1 / 2 then ⌊q⌋
  else if 1 / 2 < q - (⌊q⌋ : ℚ) then ⌊q⌋ + 1
  else if ⌊q⌋ % 2 = 0 then ⌊q⌋ else ⌊q⌋ + 1

/-- Python `round(x, 2)` over exact rationals: the nearest two-decimal
value, ties to even (e.g. `round(3.125, 2) = 3.12`, which is exactly
what CPython returns there since 3.125 is an exact binary float). -/
def roundTo2 (q : ℚ) : ℚ :=
  ((roundHalfEven (q * 100) : ℤ) : ℚ) / 100

/-- SQL `DATE(created_at) = date` for one row.  Stored `created_at`
values come from validated timestamp strings; Postgres normalizes them,
so the row matches a canonically formatted `YYYY-MM-DD` parameter exactly
when the canonical date of its parsed timestamp equals it.  (An
unparseable string could never have been inserted into the `TIMESTAMP`
column.) -/
def dateMatches (created_at date : String) : Bool :=
  match parseTimestampEither created_at with
  | some t => formatDate t = date
  | Option.none => false

/-- The body of `get_daily_statistics` (source lines 274–305): one
aggregate query with conditional counts.  An ungrouped aggregate always
yields exactly one row, so `fetchone()` is a non-empty tuple and
`if result:` is always taken: the function returns a statistics dict for
every date, zero counts included.  `success_rate` is
`round((success / submit_cnt * 100) if submit_cnt > 0 else 0, 2)`. -/
def get_daily_statisticsBody (date : String) (db : List NormalizedAttempt)
    (fault : Bool) : Except String (Option DailyStatistics) :=
  if fault then .error "psycopg2.Error"
  else
    let rows := db.filter (fun r => dateMatches r.created_at date)
    let success := (rows.filter (fun r => r.is_correct == some true)).length
    let submit_cnt := (rows.filter (fun r => r.attempt_type == "submit")).length
    .ok (some
      { date := date
        total_attempts := rows.length
        successful_attempts := success
        failed_attempts := (rows.filter (fun r => r.is_correct == some false)).length
        run_attempts := (rows.filter (fun r => r.is_correct == Option.none)).length
        unique_users := ((rows.map (fun r => r.user_id)).dedup).length
        run_count := (rows.filter (fun r => r.attempt_type == "run")).length
        submit_count := submit_cnt
        success_rate :=
          roundTo2 (if 0 < submit_cnt then (success : ℚ) / (submit_cnt : ℚ) * 100 else 0) })

/-- Model of `get_daily_statistics` as observed by `main`: the body guarded by
`except psycopg2.Error`, which logs and returns `None`. -/
def get_daily_statistics (date : String) (db : List NormalizedAttempt)
    (fault : Bool) : Option DailyStatistics :=
  match get_daily_statisticsBody date db fault with
  | .ok v => v
  | .error _ => Option.none

/-- Variant of `get_daily_statistics` with its `try`/`except psycopg2.Error` made
explicit: an `Except.error` result would be an exception escaping to
`main`. -/
def get_daily_statisticsRun (date : String) (db : List NormalizedAttempt)
    (fault : Bool) : Except String (Option DailyStatistics) :=
  match get_daily_statisticsBody date db fault with
  | .ok v => .ok v
  | .error _ => .ok Option.none

/-! ### Pipeline Orchestrator (`main`, source lines 366–410) -/

/-- How a run of `main` ends: the three early returns, the outer
`except Exception` path ("Завершение: С ошибками"), and the normal path
("Завершение: Успешно"). -/
inductive RunOutcome where
  | apiError
  | apiEmpty
  | noValidated
  | failed
  | success
deriving Repr, DecidableEq

/-- The external world of one run: the fetch outcome (`None` = API
failure), the `ast.literal_eval` behaviour, the pre-existing table rows,
injected driver faults for the three store operations, and the
`START_DATE` string. -/
structure Env where
  fetchResult : Option (List RawRecord)
  litEval : LitEval
  db0 : List NormalizedAttempt
  schemaFault : Bool
  loadFault : Bool
  statsFault : Bool
  startDate : String

/-- Observable outcome of one run of `main`. -/
structure RunResult where
  outcome : RunOutcome
  schemaCreated : Bool
  loadCalled : Bool
  loadedCount : Option Nat
  stats : Option DailyStatistics
  publishCalled : Bool
  db : List NormalizedAttempt
deriving Repr

/-- Model of `START_DATE.split()[0]`: Python `str.split()` splits on whitespace
runs, skipping leading whitespace; an all-whitespace string gives an
empty token list and `[0]` raises `IndexError` (caught by the outer
handler of `main`). -/
def firstTokenStr (s : String) : String :=
  String.mk ((s.data.dropWhile isPySpace).takeWhile (fun c => !isPySpace c))

/-- Model of `main` (source lines 366–410).  Strict sequence with early returns:
fetch failure → return; zero fetched records → return; zero validated
records → return (no schema creation, no load); `create_database_table`
or `load_data_to_database` raising lands in the outer `except Exception`
(run marked failed); `get_daily_statistics` never raises; `if stats:` (a
nine-key dict is truthy) decides whether `upload_to_google_sheets` is
invoked. -/
def main (env : Env) : RunResult :=
  match env.fetchResult with
  | Option.none =>
    ⟨.apiError, false, false, Option.none, Option.none, false, env.db0⟩
  | some raws =>
    if raws.isEmpty then
      ⟨.apiEmpty, false, false, Option.none, Option.none, false, env.db0⟩
    else
      let validated := process_data raws env.litEval
      if validated.isEmpty then
        ⟨.noValidated, false, false, Option.none, Option.none, false, env.db0⟩
      else
        match create_database_table env.schemaFault with
        | .error _ =>
          ⟨.failed, false, false, Option.none, Option.none, false, env.db0⟩
        | .ok _ =>
          match load_data_to_database validated env.db0 env.loadFault with
          | (.error _, db1) =>
            ⟨.failed, true, true, Option.none, Option.none, false, db1⟩
          | (.ok n, db1) =>
            let tok := firstTokenStr env.startDate
            if tok.isEmpty then
              ⟨.failed, true, true, some n, Option.none, false, db1⟩
            else
              match get_daily_statistics tok db1 env.statsFault with
              | some s => ⟨.success, true, true, some n, some s, true, db1⟩
              | Option.none => ⟨.success, true, true, some n, Option.none, false, db1⟩

/-! ### Concrete collaborators used in closed statements -/

/-- An `ast.literal_eval` that always raises. -/
def evalFail : LitEval := fun _ => Except.error "malformed node or string"

/-- An `ast.literal_eval` that always returns the empty dict: feeding it
to the validator is the same as the blob being the string `"None"`. -/
def emptyDictEval : LitEval := fun _ => Except.ok (PyVal.dict [])

/-- A `literal_eval` outcome that `parse_passback_params` turns into the
empty mapping: a raised parse fault, or a parsed non-dict value. -/
def litBad : Except String PyVal → Bool
  | .error _ => true
  | .ok (.dict _) => false
  | .ok _ => true

/-- The aggregate example of the spec: 10 rows on one date, 4 submits
(3 correct, 1 incorrect), 6 runs. -/
def exampleDb : List NormalizedAttempt :=
  [⟨"a", "", "", "", some true, "submit", "2023-05-31 10:00:00"⟩,
   ⟨"b", "", "", "", some true, "submit", "2023-05-31 10:01:00"⟩,
   ⟨"c", "", "", "", some true, "submit", "2023-05-31 10:02:00"⟩,
   ⟨"d", "", "", "", some false, "submit", "2023-05-31 10:03:00"⟩,
   ⟨"e", "", "", "", Option.none, "run", "2023-05-31 10:04:00"⟩,
   ⟨"f", "", "", "", Option.none, "run", "2023-05-31 10:05:00"⟩,
   ⟨"g", "", "", "", Option.none, "run", "2023-05-31 10:06:00"⟩,
   ⟨"h", "", "", "", Option.none, "run", "2023-05-31 10:07:00"⟩,
   ⟨"i", "", "", "", Option.none, "run", "2023-05-31 10:08:00"⟩,
   ⟨"j", "", "", "", Option.none, "run", "2023-05-31 10:09:00"⟩]

/-! ## Theorems -/

/-- Rounding zero: `round(0, 2) = 0`. -/
theorem roundTo2_zero : roundTo2 0 = 0 := by
  norm_num [roundTo2, roundHalfEven]

/-- Tie behaviour of the model matches CPython: with 1 success out of 32
submits the rate is exactly 3.125 and `round(3.125, 2) = 3.12` (ties to
even), not 3.13. -/
theorem roundTo2_tie_to_even :
    roundTo2 ((1 : ℚ) / (32 : ℚ) * 100) = 312 / 100 := by
  norm_num [roundTo2, roundHalfEven]

/-- C4: For every RawRecord, validate never raises: every failure,
including any unexpected internal fault during validation of that single
record, is returned as a rejection (`None`), so a single malformed record
never aborts the batch; absent a fault the caller sees exactly
the value of `validate_record`. -/
theorem c4_validate_never_raises (record : RawRecord) (litEval : LitEval)
    (fault : Option String) :
    validate_recordRun record litEval fault =
      .ok (match fault with
           | some _ => Option.none
           | Option.none => validate_record record litEval) := by
  cases fault with
  | some m => rfl
  | none =>
    cases h : validateBodyE record litEval Option.none with
    | ok v => simp [validate_recordRun, validate_record, h]
    | error e => simp [validate_recordRun, validate_record, h]

/-- Counterexample to C3 as stated: a batch of 101 records is fully
inserted (the store gains all 101 rows) but the function returns 1, the
rowcount of the last `execute_values` page — not the number of rows
inserted. -/
theorem c3_counterexample :
    load_data_to_database
        (List.replicate 101
          ⟨"u", "", "", "", Option.none, "run", "2023-05-31 10:00:00"⟩) [] false =
      (.ok 1, List.replicate 101
        ⟨"u", "", "", "", Option.none, "run", "2023-05-31 10:00:00"⟩) ∧
    (List.replicate 101 (⟨"u", "", "", "", Option.none, "run",
      "2023-05-31 10:00:00"⟩ : NormalizedAttempt)).length = 101 ∧
    (1 : Nat) ≠ 101 :=
  ⟨rfl, rfl, by decide⟩

/-- C3 (amended): bulk load of a non-empty sequence inserts all records
in one transaction; its return value is the rowcount of the last
`execute_values` page (pages of 100 rows), which equals the number of
rows inserted whenever the batch holds at most 100 records; on a
persistence fault the transaction rolls back entirely (the store is
unchanged) and the fault is re-raised. -/
theorem c3_bulk_load_all_or_nothing (records db : List NormalizedAttempt)
    (h : records ≠ []) :
    load_data_to_database records db false =
      (.ok (executeValuesRowcount records.length), db ++ records) ∧
    (records.length ≤ 100 → executeValuesRowcount records.length = records.length) ∧
    load_data_to_database records db true = (.error "psycopg2.Error", db) := by
  cases records with
  | nil => exact absurd rfl h
  | cons a l =>
    refine ⟨rfl, ?_, rfl⟩
    intro hle
    have hpos : 0 < (a :: l).length := by simp
    unfold executeValuesRowcount
    split <;> omega

/-- Witness for the amended C3 at a one-record batch over an empty
store. -/
theorem c3_witness :
    load_data_to_database [⟨"u", "", "", "", Option.none, "run", "2023-05-31 10:00:00"⟩]
        [] false =
      (.ok (executeValuesRowcount 1),
        [⟨"u", "", "", "", Option.none, "run", "2023-05-31 10:00:00"⟩]) ∧
    executeValuesRowcount 1 = 1 ∧
    load_data_to_database [⟨"u", "", "", "", Option.none, "run", "2023-05-31 10:00:00"⟩]
        [] true =
      (.error "psycopg2.Error", []) :=
  ⟨(c3_bulk_load_all_or_nothing
      [⟨"u", "", "", "", Option.none, "run", "2023-05-31 10:00:00"⟩] [] (by decide)).1,
   (c3_bulk_load_all_or_nothing
      [⟨"u", "", "", "", Option.none, "run", "2023-05-31 10:00:00"⟩] [] (by decide)).2.1
     (by decide),
   (c3_bulk_load_all_or_nothing
      [⟨"u", "", "", "", Option.none, "run", "2023-05-31 10:00:00"⟩] [] (by decide)).2.2⟩

/-- C6: in every daily aggregate result, `success_rate` is
`successful_attempts / submit_count * 100` rounded to two decimal places
when `submit_count` is nonzero, and `0` (with no division fault) when
`submit_count` is zero. -/
theorem c6_success_rate (date : String) (db : List NormalizedAttempt)
    (st : DailyStatistics) (h : get_daily_statistics date db false = some st) :
    (0 < st.submit_count →
      st.success_rate =
        roundTo2 ((st.successful_attempts : ℚ) / (st.submit_count : ℚ) * 100)) ∧
    (st.submit_count = 0 → st.success_rate = 0) := by
  unfold get_daily_statistics get_daily_statisticsBody at h
  simp only [Bool.false_eq_true, if_false, Option.some.injEq] at h
  subst h
  constructor
  · intro hpos
    simp only [DailyStatistics.success_rate, DailyStatistics.submit_count,
      DailyStatistics.successful_attempts] at *
    rw [if_pos hpos]
  · intro hzero
    simp only [DailyStatistics.submit_count] at hzero
    simp only [DailyStatistics.success_rate]
    rw [if_neg (by omega), roundTo2_zero]

/-- Witness for C6 on an empty store: `submit_count = 0` and
`success_rate = 0`, with no division fault. -/
theorem c6_witness :
    (⟨"2023-05-31", 0, 0, 0, 0, 0, 0, 0, roundTo2 0⟩ : DailyStatistics).success_rate = 0 :=
  (c6_success_rate "2023-05-31" []
    ⟨"2023-05-31", 0, 0, 0, 0, 0, 0, 0, roundTo2 0⟩ rfl).2 rfl

/-- The worked aggregate example of the spec, checked against the embedding:
10 rows, 4 submits (3 correct, 1 incorrect), 6 runs give
`success_rate = round(3/4*100, 2) = 75.0`. -/
theorem aggregate_example_success_rate_75 :
    get_daily_statistics "2023-05-31" exampleDb false =
      some ⟨"2023-05-31", 10, 3, 1, 6, 10, 6, 4, 75⟩ := by
  have h : get_daily_statistics "2023-05-31" exampleDb false =
      some ⟨"2023-05-31", 10, 3, 1, 6, 10, 6, 4,
        roundTo2 (if 0 < (4 : Nat) then ((3 : Nat) : ℚ) / ((4 : Nat) : ℚ) * 100 else 0)⟩ :=
    rfl
  rw [h]
  norm_num [roundTo2, roundHalfEven]

/-- Counterexample to C1 as stated: the record with raw timestamp
`"2023-05-31 10:00:00.1"` is accepted, and the `created_at` of the
resulting NormalizedAttempt is that raw string — not the parsed
timestamp value (whose renderings at the two permitted precisions are
`"...00.100000"` and `"...00"`, neither equal to the stored string). -/
theorem c1_counterexample :
    validate_record
        [("lti_user_id", PyVal.str "u1"), ("passback_params", PyVal.str "None"),
         ("attempt_type", PyVal.str "run"),
         ("created_at", PyVal.str "2023-05-31 10:00:00.1")] evalFail =
      some ⟨"u1", "", "", "", Option.none, "run", "2023-05-31 10:00:00.1"⟩ ∧
    parseTimestampEither "2023-05-31 10:00:00.1" = some ⟨2023, 5, 31, 10, 0, 0, 100000⟩ ∧
    formatMicroTs ⟨2023, 5, 31, 10, 0, 0, 100000⟩ = "2023-05-31 10:00:00.100000" ∧
    formatSecTs ⟨2023, 5, 31, 10, 0, 0, 100000⟩ = "2023-05-31 10:00:00" ∧
    ("2023-05-31 10:00:00.1" : String) ≠ "2023-05-31 10:00:00.100000" ∧
    ("2023-05-31 10:00:00.1" : String) ≠ "2023-05-31 10:00:00" :=
  ⟨rfl, rfl, rfl, rfl, by decide, by decide⟩

/-- Counterexample to C2 as stated: a run that loads one row dated
2020-01-01 and then aggregates over 2023-05-31 — a date with no rows.
The aggregate query still returns a result (a zero-count statistics row),
the caller does not take the "no statistics" path, and the publish step
is invoked, not skipped. -/
theorem c2_counterexample :
    ((main ⟨some [[("lti_user_id", PyVal.str "u1"), ("passback_params", PyVal.str "None"),
          ("attempt_type", PyVal.str "run"),
          ("created_at", PyVal.str "2020-01-01 00:00:00")]],
        evalFail, [], false, false, false, "2023-05-31 00:00:00.000000"⟩).stats).isSome = true ∧
    (main ⟨some [[("lti_user_id", PyVal.str "u1"), ("passback_params", PyVal.str "None"),
          ("attempt_type", PyVal.str "run"),
          ("created_at", PyVal.str "2020-01-01 00:00:00")]],
        evalFail, [], false, false, false, "2023-05-31 00:00:00.000000"⟩).publishCalled = true ∧
    ((main ⟨some [[("lti_user_id", PyVal.str "u1"), ("passback_params", PyVal.str "None"),
          ("attempt_type", PyVal.str "run"),
          ("created_at", PyVal.str "2020-01-01 00:00:00")]],
        evalFail, [], false, false, false, "2023-05-31 00:00:00.000000"⟩).stats.map
      (fun s => s.total_attempts)) = some 0 :=
  ⟨rfl, rfl, rfl⟩

/-- Counterexample to C7 as stated: a record whose `is_correct` field is
present and `null` (neither absent, nor an integer, nor a boolean) is not
rejected — it is accepted with a `null` normalized flag, because
`record.get("is_correct")` cannot distinguish a present `None` from an
absent key. -/
theorem c7_counterexample :
    getKey
        [("lti_user_id", PyVal.str "u1"), ("passback_params", PyVal.str "None"),
         ("attempt_type", PyVal.str "run"), ("created_at", PyVal.str "2023-05-31 10:00:00"),
         ("is_correct", PyVal.none)] "is_correct" = some PyVal.none ∧
    validate_record
        [("lti_user_id", PyVal.str "u1"), ("passback_params", PyVal.str "None"),
         ("attempt_type", PyVal.str "run"), ("created_at", PyVal.str "2023-05-31 10:00:00"),
         ("is_correct", PyVal.none)] evalFail =
      some ⟨"u1", "", "", "", Option.none, "run", "2023-05-31 10:00:00"⟩ :=
  ⟨rfl, rfl⟩

/-- Counterexample to C8 as stated: a record whose `lti_user_id` is the
empty string passes the presence check, and `str("")` is `""`, so
validate produces a NormalizedAttempt with an empty `user_id`. -/
theorem c8_counterexample :
    validate_record
        [("lti_user_id", PyVal.str ""), ("passback_params", PyVal.str "None"),
         ("attempt_type", PyVal.str "run"),
         ("created_at", PyVal.str "2023-05-31 10:00:00")] evalFail =
      some ⟨"", "", "", "", Option.none, "run", "2023-05-31 10:00:00"⟩ ∧
    (⟨"", "", "", "", Option.none, "run", "2023-05-31 10:00:00"⟩ :
      NormalizedAttempt).user_id = "" :=
  ⟨rfl, rfl⟩

/-- Counterexample to C9 as stated: `process_data` does not return the
rejected count — its return value on a batch of one rejected record (an
empty mapping, missing every required field) is identical to its return
value on the empty batch, although the logged `skipped` counters (1
vs. 0) differ. -/
theorem c9_counterexample :
    process_data [([] : RawRecord)] evalFail = process_data [] evalFail ∧
    rejectedCount [([] : RawRecord)] evalFail = 1 ∧
    rejectedCount [] evalFail = 0 :=
  ⟨rfl, rfl, rfl⟩

set_option maxRecDepth 4000 in
theorem validate_record_eq_some (record : RawRecord) (le : LitEval)
    (a : NormalizedAttempt) :
    validate_record record le = some a ↔
    ∃ uidv pbv atStr icv s,
      getKey record "lti_user_id" = some uidv ∧
      getKey record "passback_params" = some pbv ∧
      getKey record "attempt_type" = some (PyVal.str atStr) ∧
      (atStr = "run" ∨ atStr = "submit") ∧
      coerce_is_correct ((getKey record "is_correct").getD PyVal.none) = some icv ∧
      getKey record "created_at" = some (PyVal.str s) ∧
      (parseTimestampEither s).isSome = true ∧
      a = buildAttempt uidv (parse_passback_params pbv le) icv atStr s := by
  cases h1 : getKey record "lti_user_id" with
  | none => simp [validate_record, validateBodyE, h1]
  | some uidv =>
    cases h2 : getKey record "passback_params" with
    | none => simp [validate_record, validateBodyE, h1, h2]
    | some pbv =>
      cases h3 : getKey record "attempt_type" with
      | none => simp [validate_record, validateBodyE, h1, h2, h3]
      | some atv =>
        cases h4 : getKey record "created_at" with
        | none => simp [validate_record, validateBodyE, h1, h2, h3, h4]
        | some cav =>
          cases atv with
          | str atStr =>
            by_cases hat : atStr = "run" ∨ atStr = "submit"
            · rcases hat with rfl | rfl
              all_goals
                cases h5 : coerce_is_correct ((getKey record "is_correct").getD PyVal.none) with
                | none =>
                  simp only [validate_record, validateBodyE, h1, h2, h3, h4, h5]
                  simp [h5]
                | some icv =>
                  cases cav with
                  | str s =>
                    cases h6 : parseTimestampEither s with
                    | none =>
                      simp only [validate_record, validateBodyE, h1, h2, h3, h4, h5, h6]
                      simp [h5, h6]
                    | some t =>
                      simp only [validate_record, validateBodyE, h1, h2, h3, h4, h5, h6,
                        decide_True, Bool.true_or, Bool.or_true, eq_self_iff_true,
                        if_true, Option.some.injEq, PyVal.str.injEq]
                      constructor
                      · intro h
                        exact ⟨uidv, pbv, _, icv, s, rfl, rfl, rfl, by simp, rfl, rfl,
                          by simp [h6], h.symm⟩
                      · rintro ⟨u, p, at2, i, s2, rfl, rfl, rfl, -, rfl, rfl, -, ha⟩
                        exact ha.symm
                  | none =>
                    simp only [validate_record, validateBodyE, h1, h2, h3, h4, h5]
                    simp [h5]
                  | bool b =>
                    simp only [validate_record, validateBodyE, h1, h2, h3, h4, h5]
                    simp [h5]
                  | int n =>
                    simp only [validate_record, validateBodyE, h1, h2, h3, h4, h5]
                    simp [h5]
                  | list xs =>
                    simp only [validate_record, validateBodyE, h1, h2, h3, h4, h5]
                    simp [h5]
                  | dict kvs =>
                    simp only [validate_record, validateBodyE, h1, h2, h3, h4, h5]
                    simp [h5]
            · obtain ⟨hr, hs⟩ := not_or.mp hat
              simp only [validate_record, validateBodyE, h1, h2, h3, h4]
              simp [hr, hs]
          | none =>
            simp only [validate_record, validateBodyE, h1, h2, h3, h4]
            simp
          | bool b =>
            simp only [validate_record, validateBodyE, h1, h2, h3, h4]
            simp
          | int n =>
            simp only [validate_record, validateBodyE, h1, h2, h3, h4]
            simp
          | list xs =>
            simp only [validate_record, validateBodyE, h1, h2, h3, h4]
            simp
          | dict kvs =>
            simp only [validate_record, validateBodyE, h1, h2, h3, h4]
            simp

/-- C1 (amended): for every accepted RawRecord, the `created_at` of the
resulting NormalizedAttempt is the raw input timestamp string, and that
string is guaranteed to parse under one of the two permitted formats. -/
theorem c1_created_at_is_raw (record : RawRecord) (le : LitEval)
    (a : NormalizedAttempt) (h : validate_record record le = some a) :
    getKey record "created_at" = some (PyVal.str a.created_at) ∧
    (parseTimestampEither a.created_at).isSome = true := by
  rcases (validate_record_eq_some record le a).mp h with
    ⟨u, p, t, i, s, h1, h2, h3, h4, h5, h6, h7, h8⟩
  subst h8
  exact ⟨h6, h7⟩

/-- Witness for the amended C1 at a concrete accepted record. -/
theorem c1_witness :
    getKey [("lti_user_id", PyVal.str "u1"), ("passback_params", PyVal.str "None"),
        ("attempt_type", PyVal.str "run"),
        ("created_at", PyVal.str "2023-05-31 10:00:00.1")] "created_at" =
      some (PyVal.str (⟨"u1", "", "", "", Option.none, "run",
        "2023-05-31 10:00:00.1"⟩ : NormalizedAttempt).created_at) ∧
    (parseTimestampEither (⟨"u1", "", "", "", Option.none, "run",
        "2023-05-31 10:00:00.1"⟩ : NormalizedAttempt).created_at).isSome = true :=
  c1_created_at_is_raw
    [("lti_user_id", PyVal.str "u1"), ("passback_params", PyVal.str "None"),
     ("attempt_type", PyVal.str "run"),
     ("created_at", PyVal.str "2023-05-31 10:00:00.1")] evalFail
    ⟨"u1", "", "", "", Option.none, "run", "2023-05-31 10:00:00.1"⟩ rfl

/-- C2 (amended): for every calendar date with no matching rows, the
daily aggregate query still returns a single result — a zero-count
statistics row with `success_rate = 0` — so the caller receives
statistics and proceeds to publish; the "no statistics" path is not
taken for an empty date. -/
theorem c2_empty_date_yields_zero_row (date : String)
    (db : List NormalizedAttempt)
    (h : ∀ r ∈ db, dateMatches r.created_at date = false) :
    get_daily_statistics date db false = some ⟨date, 0, 0, 0, 0, 0, 0, 0, 0⟩ := by
  have hf : db.filter (fun r => dateMatches r.created_at date) = [] :=
    List.filter_eq_nil_iff.mpr (by intro r hr; simp [h r hr])
  unfold get_daily_statistics get_daily_statisticsBody
  simp [hf, roundTo2_zero]

/-- Witness for the amended C2: a store holding one row dated 2020-01-01,
aggregated over 2023-05-31. -/
theorem c2_witness :
    get_daily_statistics "2023-05-31"
        [⟨"u1", "", "", "", Option.none, "run", "2020-01-01 00:00:00"⟩] false =
      some ⟨"2023-05-31", 0, 0, 0, 0, 0, 0, 0, 0⟩ :=
  c2_empty_date_yields_zero_row "2023-05-31"
    [⟨"u1", "", "", "", Option.none, "run", "2020-01-01 00:00:00"⟩] (by decide)

/-- C5: a nested-parameter blob that fails to parse, or parses to
something other than a mapping, is treated as the empty mapping: the
validation result is exactly what it would be with an empty decoded
mapping (so the record is not rejected for that reason), and each
extracted sub-field of an accepted record defaults to the empty
string. -/
theorem c5_bad_blob_not_rejected (record : RawRecord) (le : LitEval) (s : String)
    (h1 : getKey record "passback_params" = some (PyVal.str s))
    (h2 : litBad (le s) = true) :
    parse_passback_params (PyVal.str s) le = [] ∧
    validate_record record le = validate_record record emptyDictEval ∧
    (∀ a, validate_record record le = some a →
      a.oauth_consumer_key = "" ∧ a.lis_result_sourcedid = "" ∧
      a.lis_outcome_service_url = "") := by
  have hp1 : parse_passback_params (PyVal.str s) le = [] := by
    unfold parse_passback_params
    by_cases hs : s = "None"
    · simp [hs]
    · cases hle : le s with
      | error e => simp [hs, hle]
      | ok v =>
        cases v with
        | dict kvs => rw [hle] at h2; simp [litBad] at h2
        | none => simp [hs, hle]
        | bool b => simp [hs, hle]
        | int n => simp [hs, hle]
        | str s2 => simp [hs, hle]
        | list xs => simp [hs, hle]
  have hp2 : parse_passback_params (PyVal.str s) emptyDictEval = [] := by
    unfold parse_passback_params emptyDictEval
    by_cases hs : s = "None" <;> simp [hs]
  have heq : validate_record record le = validate_record record emptyDictEval := by
    apply Option.ext
    intro a
    simp only [Option.mem_def]
    rw [validate_record_eq_some, validate_record_eq_some]
    constructor
    · rintro ⟨u, p, t, i, s2, hu, hp, ht, hv, hi, hs2, hps, ha⟩
      rw [h1, Option.some.injEq] at hp
      subst hp
      rw [hp1] at ha
      exact ⟨u, PyVal.str s, t, i, s2, hu, h1, ht, hv, hi, hs2, hps, by rw [hp2]; exact ha⟩
    · rintro ⟨u, p, t, i, s2, hu, hp, ht, hv, hi, hs2, hps, ha⟩
      rw [h1, Option.some.injEq] at hp
      subst hp
      rw [hp2] at ha
      exact ⟨u, PyVal.str s, t, i, s2, hu, h1, ht, hv, hi, hs2, hps, by rw [hp1]; exact ha⟩
  refine ⟨hp1, heq, ?_⟩
  intro a ha
  rcases (validate_record_eq_some record le a).mp ha with
    ⟨u, p, t, i, s2, hu, hp, ht, hv, hi, hs2, hps, hbuild⟩
  rw [h1, Option.some.injEq] at hp
  subst hp
  rw [hp1] at hbuild
  subst hbuild
  exact ⟨rfl, rfl, rfl⟩

/-- Witness for C5 at a record whose blob is `"not a dict"` under a
parse that raises. -/
theorem c5_witness :
    parse_passback_params (PyVal.str "not a dict") evalFail = [] ∧
    validate_record
        [("lti_user_id", PyVal.str "u1"), ("passback_params", PyVal.str "not a dict"),
         ("attempt_type", PyVal.str "run"),
         ("created_at", PyVal.str "2023-05-31 10:00:00")] evalFail =
      validate_record
        [("lti_user_id", PyVal.str "u1"), ("passback_params", PyVal.str "not a dict"),
         ("attempt_type", PyVal.str "run"),
         ("created_at", PyVal.str "2023-05-31 10:00:00")] emptyDictEval ∧
    (∀ a, validate_record
        [("lti_user_id", PyVal.str "u1"), ("passback_params", PyVal.str "not a dict"),
         ("attempt_type", PyVal.str "run"),
         ("created_at", PyVal.str "2023-05-31 10:00:00")] evalFail = some a →
      a.oauth_consumer_key = "" ∧ a.lis_result_sourcedid = "" ∧
      a.lis_outcome_service_url = "") :=
  c5_bad_blob_not_rejected
    [("lti_user_id", PyVal.str "u1"), ("passback_params", PyVal.str "not a dict"),
     ("attempt_type", PyVal.str "run"),
     ("created_at", PyVal.str "2023-05-31 10:00:00")] evalFail "not a dict" rfl rfl

/-- C7 (amended): the correctness flag is normalized as: absent or an
explicit `null` → `null`; integer → its truthiness; boolean → kept
as-is; any other type → rejection.  The last two conjuncts tie the
coercion to `validate_record`: an accepted record carries exactly the
coerced flag, and a failing coercion forces rejection of the record. -/
theorem c7_is_correct_cases (record : RawRecord) (le : LitEval) :
    coerce_is_correct PyVal.none = some Option.none ∧
    (∀ n : Int, coerce_is_correct (PyVal.int n) = some (some (n != 0))) ∧
    (∀ b : Bool, coerce_is_correct (PyVal.bool b) = some (some b)) ∧
    (∀ s : String, coerce_is_correct (PyVal.str s) = Option.none) ∧
    (∀ xs : List PyVal, coerce_is_correct (PyVal.list xs) = Option.none) ∧
    (∀ kvs : List (PyVal × PyVal), coerce_is_correct (PyVal.dict kvs) = Option.none) ∧
    (∀ a : NormalizedAttempt, validate_record record le = some a →
      coerce_is_correct ((getKey record "is_correct").getD PyVal.none) =
        some a.is_correct) ∧
    (coerce_is_correct ((getKey record "is_correct").getD PyVal.none) = Option.none →
      validate_record record le = Option.none) := by
  refine ⟨rfl, fun n => rfl, fun b => rfl, fun s => rfl, fun xs => rfl,
    fun kvs => rfl, ?_, ?_⟩
  · intro a h
    rcases (validate_record_eq_some record le a).mp h with
      ⟨u, p, t, i, s, _, _, _, _, h5, _, _, h8⟩
    subst h8
    exact h5
  · intro hnone
    cases hv : validate_record record le with
    | none => rfl
    | some a =>
      rcases (validate_record_eq_some record le a).mp hv with
        ⟨u, p, t, i, s, _, _, _, _, h5, _, _, _⟩
      rw [hnone] at h5
      exact Option.noConfusion h5

/-- Witness for the amended C7: `is_correct = "yes"` forces rejection. -/
theorem c7_witness :
    validate_record
        [("lti_user_id", PyVal.str "u1"), ("passback_params", PyVal.str "None"),
         ("attempt_type", PyVal.str "run"),
         ("created_at", PyVal.str "2023-05-31 10:00:00"),
         ("is_correct", PyVal.str "yes")] evalFail = Option.none :=
  (c7_is_correct_cases
    [("lti_user_id", PyVal.str "u1"), ("passback_params", PyVal.str "None"),
     ("attempt_type", PyVal.str "run"),
     ("created_at", PyVal.str "2023-05-31 10:00:00"),
     ("is_correct", PyVal.str "yes")] evalFail).2.2.2.2.2.2.2 rfl

/-- C8 (amended): every NormalizedAttempt produced by validate has all
seven fields populated per the normalization rules — `user_id` is the
string coercion of the raw user-id field (and may be empty), the
attempt type is `"run"` or `"submit"`, the three passback sub-fields
come from the decoded blob with empty-string defaults, and the stored
timestamp string parses. -/
theorem c8_all_fields_populated (record : RawRecord) (le : LitEval)
    (a : NormalizedAttempt) (h : validate_record record le = some a) :
    (∃ v, getKey record "lti_user_id" = some v ∧ a.user_id = pyStr v) ∧
    (a.attempt_type = "run" ∨ a.attempt_type = "submit") ∧
    (∃ pbv, getKey record "passback_params" = some pbv ∧
      a.oauth_consumer_key =
        pyStr (dictGetStr (parse_passback_params pbv le) "oauth_consumer_key"
          (PyVal.str "")) ∧
      a.lis_result_sourcedid =
        pyStr (dictGetStr (parse_passback_params pbv le) "lis_result_sourcedid"
          (PyVal.str "")) ∧
      a.lis_outcome_service_url =
        pyStr (dictGetStr (parse_passback_params pbv le) "lis_outcome_service_url"
          (PyVal.str ""))) ∧
    (parseTimestampEither a.created_at).isSome = true := by
  rcases (validate_record_eq_some record le a).mp h with
    ⟨u, p, t, i, s, h1, h2, h3, h4, h5, h6, h7, h8⟩
  subst h8
  exact ⟨⟨u, h1, rfl⟩, h4, ⟨p, h2, rfl, rfl, rfl⟩, h7⟩

/-- Witness for the amended C8 at a concrete accepted record. -/
theorem c8_witness :
    (∃ v, getKey [("lti_user_id", PyVal.str "u1"),
        ("passback_params", PyVal.str "None"), ("attempt_type", PyVal.str "submit"),
        ("created_at", PyVal.str "2023-05-31 10:00:00"), ("is_correct", PyVal.int 1)]
        "lti_user_id" = some v ∧
      (⟨"u1", "", "", "", some true, "submit", "2023-05-31 10:00:00"⟩ :
        NormalizedAttempt).user_id = pyStr v) ∧
    ((⟨"u1", "", "", "", some true, "submit", "2023-05-31 10:00:00"⟩ :
        NormalizedAttempt).attempt_type = "run" ∨
      (⟨"u1", "", "", "", some true, "submit", "2023-05-31 10:00:00"⟩ :
        NormalizedAttempt).attempt_type = "submit") ∧
    (∃ pbv, getKey [("lti_user_id", PyVal.str "u1"),
        ("passback_params", PyVal.str "None"), ("attempt_type", PyVal.str "submit"),
        ("created_at", PyVal.str "2023-05-31 10:00:00"), ("is_correct", PyVal.int 1)]
        "passback_params" = some pbv ∧
      (⟨"u1", "", "", "", some true, "submit", "2023-05-31 10:00:00"⟩ :
        NormalizedAttempt).oauth_consumer_key =
        pyStr (dictGetStr (parse_passback_params pbv evalFail) "oauth_consumer_key"
          (PyVal.str "")) ∧
      (⟨"u1", "", "", "", some true, "submit", "2023-05-31 10:00:00"⟩ :
        NormalizedAttempt).lis_result_sourcedid =
        pyStr (dictGetStr (parse_passback_params pbv evalFail) "lis_result_sourcedid"
          (PyVal.str "")) ∧
      (⟨"u1", "", "", "", some true, "submit", "2023-05-31 10:00:00"⟩ :
        NormalizedAttempt).lis_outcome_service_url =
        pyStr (dictGetStr (parse_passback_params pbv evalFail) "lis_outcome_service_url"
          (PyVal.str ""))) ∧
    (parseTimestampEither (⟨"u1", "", "", "", some true, "submit",
        "2023-05-31 10:00:00"⟩ : NormalizedAttempt).created_at).isSome = true :=
  c8_all_fields_populated
    [("lti_user_id", PyVal.str "u1"), ("passback_params", PyVal.str "None"),
     ("attempt_type", PyVal.str "submit"),
     ("created_at", PyVal.str "2023-05-31 10:00:00"), ("is_correct", PyVal.int 1)]
    evalFail ⟨"u1", "", "", "", some true, "submit", "2023-05-31 10:00:00"⟩ rfl

/-- C9 (amended): `process_data` applies the Validator to every element
independently and in input order and returns the accepted sublist in
input order; the rejected count is computed and logged but not part of
the return value; empty input yields an empty list with a zero logged
count; and when the accepted list is empty the pipeline short-circuits —
no schema creation and no load call. -/
theorem c9_process_semantics :
    (∀ (raws : List RawRecord) (le : LitEval),
      process_data raws le = raws.filterMap (fun r => validate_record r le) ∧
      rejectedCount raws le =
        (raws.filter (fun r => (validate_record r le).isNone)).length) ∧
    (∀ le : LitEval, process_data [] le = [] ∧ rejectedCount [] le = 0) ∧
    (∀ (env : Env) (raws : List RawRecord), env.fetchResult = some raws →
      process_data raws env.litEval = [] →
      (main env).schemaCreated = false ∧ (main env).loadCalled = false) := by
  have hloop : ∀ (le : LitEval) (raws : List RawRecord),
      process_data raws le = raws.filterMap (fun r => validate_record r le) ∧
      rejectedCount raws le =
        (raws.filter (fun r => (validate_record r le).isNone)).length := by
    intro le raws
    induction raws with
    | nil => exact ⟨rfl, rfl⟩
    | cons r rest ih =>
      simp only [process_data, rejectedCount, process_dataLoop] at *
      cases hv : validate_record r le with
      | some a => simp [hv, ih.1, ih.2, List.filterMap_cons, List.filter_cons]
      | none => simp [hv, ih.1, ih.2, List.filterMap_cons, List.filter_cons]
  refine ⟨fun raws le => hloop le raws, fun le => (hloop le []), ?_⟩
  intro env raws hf hp
  unfold main
  simp only [hf]
  by_cases hr : raws.isEmpty
  · simp [hr]
  · simp [hr, hp]

/-- Witness for the amended C9: fetching one record that is rejected (an
empty mapping) short-circuits before schema creation and load. -/
theorem c9_witness :
    (main ⟨some [([] : RawRecord)], evalFail, [], false, false, false,
        "2023-05-31 00:00:00.000000"⟩).schemaCreated = false ∧
    (main ⟨some [([] : RawRecord)], evalFail, [], false, false, false,
        "2023-05-31 00:00:00.000000"⟩).loadCalled = false :=
  c9_process_semantics.2.2
    ⟨some [([] : RawRecord)], evalFail, [], false, false, false,
      "2023-05-31 00:00:00.000000"⟩ [([] : RawRecord)] rfl rfl

/-- C10: a fault in the daily aggregate query is never run-fatal — the
operation catches the persistence fault and returns the no-statistics
result instead of raising, and a run that reaches the aggregate stage
with a faulting query still ends marked successful, with publish
skipped. -/
theorem c10_statistics_fault_not_fatal :
    (∀ (date : String) (db : List NormalizedAttempt),
      get_daily_statisticsRun date db true = .ok Option.none) ∧
    (∀ (env : Env) (raws : List RawRecord),
      env.fetchResult = some raws → raws ≠ [] →
      process_data raws env.litEval ≠ [] →
      env.schemaFault = false → env.loadFault = false → env.statsFault = true →
      firstTokenStr env.startDate ≠ "" →
      (main env).outcome = RunOutcome.success ∧
      (main env).publishCalled = false ∧
      (main env).stats = Option.none) := by
  constructor
  · intro date db
    rfl
  · intro env raws hf hne hpne hsf hlf hstf htok
    have hr : raws.isEmpty = false := by
      simpa [List.isEmpty_iff] using hne
    have hv : (process_data raws env.litEval).isEmpty = false := by
      simpa [List.isEmpty_iff] using hpne
    have ht : (firstTokenStr env.startDate).isEmpty = false := by
      cases hie : (firstTokenStr env.startDate).isEmpty with
      | false => rfl
      | true => exact absurd ((String.isEmpty_iff _).mp hie) htok
    unfold main
    simp [hf, hr, hv, hsf, hlf, hstf, ht, create_database_table,
      load_data_to_database, get_daily_statistics, get_daily_statisticsBody]

/-- Witness for C10: a concrete run with a faulting aggregate query ends
successful with no publish. -/
theorem c10_witness :
    (main ⟨some [[("lti_user_id", PyVal.str "u1"),
        ("passback_params", PyVal.str "None"), ("attempt_type", PyVal.str "run"),
        ("created_at", PyVal.str "2023-05-31 10:00:00")]],
      evalFail, [], false, false, true, "2023-05-31 00:00:00.000000"⟩).outcome =
      RunOutcome.success ∧
    (main ⟨some [[("lti_user_id", PyVal.str "u1"),
        ("passback_params", PyVal.str "None"), ("attempt_type", PyVal.str "run"),
        ("created_at", PyVal.str "2023-05-31 10:00:00")]],
      evalFail, [], false, false, true, "2023-05-31 00:00:00.000000"⟩).publishCalled =
      false ∧
    (main ⟨some [[("lti_user_id", PyVal.str "u1"),
        ("passback_params", PyVal.str "None"), ("attempt_type", PyVal.str "run"),
        ("created_at", PyVal.str "2023-05-31 10:00:00")]],
      evalFail, [], false, false, true, "2023-05-31 00:00:00.000000"⟩).stats =
      Option.none :=
  c10_statistics_fault_not_fatal.2
    ⟨some [[("lti_user_id", PyVal.str "u1"),
        ("passback_params", PyVal.str "None"), ("attempt_type", PyVal.str "run"),
        ("created_at", PyVal.str "2023-05-31 10:00:00")]],
      evalFail, [], false, false, true, "2023-05-31 00:00:00.000000"⟩
    [[("lti_user_id", PyVal.str "u1"), ("passback_params", PyVal.str "None"),
      ("attempt_type", PyVal.str "run"),
      ("created_at", PyVal.str "2023-05-31 10:00:00")]]
    rfl (by simp) (by decide) rfl rfl rfl (by decide)

end Grader
